import Mathlib

/-!
Shallow embedding of the scope-navigation / resolved-context GUI core of the
allzpark repository, translated from `src/allzpark/gui/widgets.py` and
`src/allzpark/gui2/widgets_avalon.py`.

Modelled components:
* `BusyState` with `set_overwhelmed` / `pop_overwhelmed`
  (`BusyWidget`, gui/widgets.py lines 68-141);
* `SlideState` with `slide_view` / `slide_finished`
  (`SlidePageWidget`, gui/widgets.py lines 144-201);
* `AvalonState` with `set_page`
  (`AvalonWidget.set_page`, gui2/widgets_avalon.py lines 80-87);
* `WorkspaceState` with `on_workspace_entered` / `register_backends`
  (`WorkspaceWidget`, gui/widgets.py lines 225-320);
* `ToolContextState` with `on_tool_selected`
  (`ToolContextWidget`, gui/widgets.py lines 395-443), over a model of
  Python dict update (`dictSet` / `dictUpdate` / `dictLookup`);
* `EnvFilterState` with the search / switch / inverse handlers
  (`ResolvedEnvironment`, gui/widgets.py lines 597-703).
-/

namespace Park

/-- A scope: a node of the navigation hierarchy.  `upstream` is the reference
to the parent scope, `none` for a root (entrance) scope.  This mirrors the
attributes of `AbstractScope` that `WorkspaceWidget.on_workspace_entered`
reads (`scope.name`, `scope.upstream`). -/
inductive Scope where
  | mk (name : String) (upstream : Option Scope)

/-- `scope.name` -/
def Scope.name : Scope → String
  | Scope.mk n _ => n

/-- `scope.upstream` -/
def Scope.upstream : Scope → Option Scope
  | Scope.mk _ u => u

/-! ## BusyWidget (gui/widgets.py lines 68-141) -/

/-- State of one `BusyWidget`: `busy_works` is `self._busy_works` (a Python
set of worker-id strings), `entered` is `self._entered`, `blocked` records
whether the shared busy event filter is currently installed on the widget and
all its children (`_block_children(True)` installed it), and `cursorDepth` is
the depth of the application-wide override-cursor stack that
`_over_busy_cursor` pushes onto / pops from. -/
structure BusyState where
  busy_works : Finset String
  entered : Bool
  blocked : Bool
  cursorDepth : Nat
  deriving DecidableEq

/-- `BusyWidget._over_busy_cursor(over)`: `setOverrideCursor` pushes one entry
on the application cursor stack, `restoreOverrideCursor` pops one (popping an
empty stack is a no-op, hence truncated subtraction). -/
def over_busy_cursor (s : BusyState) (over : Bool) : BusyState :=
  if over then { s with cursorDepth := s.cursorDepth + 1 }
  else { s with cursorDepth := s.cursorDepth - 1 }

/-- `BusyWidget._block_children(block)`: installs (or removes) the shared
input-blocking event filter on the widget and all descendants. -/
def block_children (s : BusyState) (block : Bool) : BusyState :=
  { s with blocked := block }

/-- `BusyWidget.set_overwhelmed(worker)` (lines 88-95): if the busy set is
empty, switch to the busy cursor when the pointer is inside and install the
blocking filter; then add the worker id to the set. -/
def set_overwhelmed (s : BusyState) (worker : String) : BusyState :=
  let t :=
    if s.busy_works = ∅ then
      let u := if s.entered then over_busy_cursor s true else s
      block_children u true
    else s
  { t with busy_works := insert worker t.busy_works }

/-- `BusyWidget.pop_overwhelmed(worker)` (lines 97-105): remove the worker id
if present; if the set is (now) empty, restore the cursor when the pointer is
inside and remove the blocking filter. -/
def pop_overwhelmed (s : BusyState) (worker : String) : BusyState :=
  let t :=
    if worker ∈ s.busy_works then
      { s with busy_works := s.busy_works.erase worker }
    else s
  if t.busy_works = ∅ then
    let u := if t.entered then over_busy_cursor t false else t
    block_children u false
  else t

/-! ## SlidePageWidget (gui/widgets.py lines 144-201) -/

/-- State of a `SlidePageWidget`: the current page index, the target index of
an animation group that has been started but has not yet finished (the stacked
widget's current index only changes in the `slide_finished` callback), the
number of animation groups ever started, and the number of warnings logged. -/
structure SlideState where
  currentIndex : Nat
  pendingAnim : Option Nat
  animStarts : Nat
  warnings : Nat
  deriving DecidableEq

/-- `SlidePageWidget.directions` (lines 147-152): the class-level dict mapping
a direction token to a unit offset point; `dict.get` yields `none` for any
other token. -/
def directions (direction : String) : Option (Int × Int) :=
  if direction = "left" then some (-1, 0)
  else if direction = "right" then some (1, 0)
  else if direction = "up" then some (0, 1)
  else if direction = "down" then some (0, -1)
  else none

/-- `SlidePageWidget.slide_view(index, direction)` (lines 154-201): return at
once when `index` is already current; warn and return on an unknown direction
token; otherwise start the parallel animation group whose `finished` callback
will make `index` current.  (The geometry set-up on the pages between those
two checks and the animation start is purely visual and is not tracked; the
page lookup `self.widget(index)` is assumed in range, as in every call site.) -/
def slide_view (s : SlideState) (index : Nat) (direction : String) : SlideState :=
  if s.currentIndex = index then s
  else
    match directions direction with
    | none => { s with warnings := s.warnings + 1 }
    | some _ => { s with pendingAnim := some index, animStarts := s.animStarts + 1 }

/-- The `slide_finished` callback (lines 197-198): `setCurrentWidget(new_page)`
once the animation group finishes. -/
def slide_finished (s : SlideState) : SlideState :=
  match s.pendingAnim with
  | some i => { s with currentIndex := i, pendingAnim := none }
  | none => s

/-! ## AvalonWidget.set_page (gui2/widgets_avalon.py lines 80-87) -/

/-- The part of `AvalonWidget` state that `set_page` touches: the slider
(`self._slider`, a `SlidePageWidget`), the widget's own cached page number
(`self._page`), and a count of `slide_view` invocations. -/
structure AvalonState where
  slider : SlideState
  page : Nat
  slideCalls : Nat
  deriving DecidableEq

/-- `AvalonWidget.set_page(page)`: return when the requested page equals both
the slider's current index and the cached `self._page`; otherwise pick the
slide direction, cache the page and call `slide_view`. -/
def set_page (s : AvalonState) (p : Nat) : AvalonState :=
  if s.slider.currentIndex = p ∧ s.page = p then s
  else
    let direction := if s.slider.currentIndex < p then "right" else "left"
    { slider := slide_view s.slider p direction,
      page := p,
      slideCalls := s.slideCalls + 1 }

/-! ## WorkspaceWidget (gui/widgets.py lines 225-320) -/

/-- A page of the entrance `QStackedWidget`: index 0 is the plain
`void_page` (`QtWidgets.QWidget()` holding the "No Available Backend" label),
every later page is a registered backend widget.  Only backend pages have the
`enter_workspace` / `update_workspace` / `on_cache_cleared` methods. -/
inductive Page where
  | void
  | backend (name : String)
  deriving DecidableEq

/-- Result of invoking a lazily loaded backend widget factory for a name, the
combination of `_load_backends().get(name)` (lines 24-38) and the call of the
returned getter: no factory registered for the name, the factory raised on
invocation (e.g. a failed deferred import), or a widget class with its
optional `icon_path` class attribute. -/
inductive LoadResult where
  | missing
  | raises
  | ok (iconPath : Option String)
  deriving DecidableEq

/-- Whether loading produced a widget class. -/
def LoadResult.isOk : LoadResult → Bool
  | LoadResult.ok _ => true
  | _ => false

/-- State of a `WorkspaceWidget`: the entrance stack pages (`self._stack`),
its current index, the backend selector combo items and their icons
(`self._combo`), whether the widget's own signals are blocked
(`self.blockSignals`), the `backend_changed` emissions observed so far, and
counters of error- and critical-severity log messages. -/
structure WorkspaceState where
  stack : List Page
  stackCurrent : Nat
  comboItems : List String
  comboIcons : List String
  signalsBlocked : Bool
  backendChangedEvents : List String
  errorLogs : Nat
  criticalLogs : Nat
  deriving DecidableEq

/-- A fresh `WorkspaceWidget` after `__init__` (lines 231-253): the stack
holds only the void page at index 0 and the combo box is empty. -/
def freshWorkspace : WorkspaceState :=
  { stack := [Page.void]
    stackCurrent := 0
    comboItems := []
    comboIcons := []
    signalsBlocked := false
    backendChangedEvents := []
    errorLogs := 0
    criticalLogs := 0 }

/-- `WorkspaceWidget._on_backend_changed(name)` (lines 255-257): re-emits the
`backend_changed` signal, which is swallowed while the widget's signals are
blocked. -/
def emitBackendChanged (s : WorkspaceState) (name : String) : WorkspaceState :=
  if s.signalsBlocked then s
  else { s with backendChangedEvents := s.backendChangedEvents ++ [name] }

/-- `QComboBox.findText(name)`: index of the first matching item, `-1` when
there is none. -/
def findText (s : WorkspaceState) (name : String) : Int :=
  match s.comboItems.findIdx? (fun t => t = name) with
  | some i => Int.ofNat i
  | none => -1

/-- `QComboBox.addItem(icon, name)`: appends the item; adding the first item
makes it current, which fires `currentTextChanged` and hence
`_on_backend_changed` (connected at line 250). -/
def comboAddItem (s : WorkspaceState) (icon name : String) : WorkspaceState :=
  let wasEmpty := s.comboItems.isEmpty
  let t := { s with comboItems := s.comboItems ++ [name]
                    comboIcons := s.comboIcons ++ [icon] }
  if wasEmpty then emitBackendChanged t name else t

/-- `QComboBox.currentText()`: with items only ever appended, the current item
stays the first one. -/
def comboCurrentText (s : WorkspaceState) : String :=
  s.comboItems.headD ""

/-- Outcome of `WorkspaceWidget.on_workspace_entered`: the state after the
call together with whether the call raised an (unhandled) `AttributeError`
from invoking `enter_workspace` on the current page. -/
structure EnterOutcome where
  state : WorkspaceState
  raisedAttributeError : Bool
  deriving DecidableEq

/-- `WorkspaceWidget.on_workspace_entered(scope)` (lines 259-272): for a root
scope, look its name up in the selector; on a miss log one critical message
and keep index `-1`; then `index += 1` (the void page sits underneath) and
switch the stack if needed (an out-of-range `setCurrentIndex` is ignored by
the stacked widget).  Finally call
`self._stack.currentWidget().enter_workspace(scope, backend_changed)`, which
raises `AttributeError` when the current page is the plain void page. -/
def on_workspace_entered (s : WorkspaceState) (scope : Scope) : EnterOutcome :=
  let t :=
    match scope.upstream with
    | none =>
        let i := findText s scope.name
        let t1 := if i < 0 then { s with criticalLogs := s.criticalLogs + 1 } else s
        let i1 := (i + 1).toNat
        if i1 = t1.stackCurrent then t1
        else if i1 < t1.stack.length then { t1 with stackCurrent := i1 } else t1
    | some _ => s
  match t.stack.get? t.stackCurrent with
  | some Page.void => { state := t, raisedAttributeError := true }
  | some (Page.backend _) => { state := t, raisedAttributeError := false }
  | none => { state := t, raisedAttributeError := true }

/-- One iteration of the `for name in names` loop of
`WorkspaceWidget.register_backends` (lines 290-313): a missing factory or a
factory that raises is logged at error severity and skipped; otherwise the
widget is constructed, its signals are connected, the page is added to the
stack and an item (with the class `icon_path` or the default server icon) is
added to the selector. -/
def registerStep (loader : String → LoadResult) (s : WorkspaceState)
    (name : String) : WorkspaceState :=
  match loader name with
  | LoadResult.missing => { s with errorLogs := s.errorLogs + 1 }
  | LoadResult.raises => { s with errorLogs := s.errorLogs + 1 }
  | LoadResult.ok iconPath =>
      let icon := iconPath.getD ":/icons/server.svg"
      let t := { s with stack := s.stack ++ [Page.backend name] }
      comboAddItem t icon name

/-- `WorkspaceWidget.register_backends(names)` (lines 282-320), parameterised
by `loader`, the environment-dependent outcome of `_load_backends().get` plus
factory invocation for each name: return at once if backend pages were already
added; otherwise block the widget's signals, process every name, unblock, and
finally either announce the current backend or log that no valid backend
registered. -/
def register_backends (s : WorkspaceState) (names : List String)
    (loader : String → LoadResult) : WorkspaceState :=
  if 1 < s.stack.length then s
  else
    let t := { s with signalsBlocked := true }
    let t := names.foldl (registerStep loader) t
    let t := { t with signalsBlocked := false }
    if t.comboItems.isEmpty then { t with errorLogs := t.errorLogs + 1 }
    else emitBackendChanged t (comboCurrentText t)

/-! ## Python dict model and ToolContextWidget (gui/widgets.py lines 395-443) -/

/-- Python `d[k] = v` on an association list with unique keys: replace the
value in place if the key is present, else append the new pair. -/
def dictSet : List (String × String) → String → String → List (String × String)
  | [], k, v => [(k, v)]
  | p :: d, k, v => if p.1 = k then (k, v) :: d else p :: dictSet d k v

/-- Python `d.update(u)`: assign every pair of `u` into `d` in order. -/
def dictUpdate : List (String × String) → List (String × String) → List (String × String)
  | d, [] => d
  | d, p :: u => dictUpdate (dictSet d p.1 p.2) u

/-- Python `d.get(k)`. -/
def dictLookup (d : List (String × String)) (k : String) : Option String :=
  (d.find? (fun p => p.1 = k)).map Prod.snd

/-- A resolved context, with the environment dict that
`context.get_environ()` returns. -/
structure Context where
  environ : List (String × String)

/-- `context.get_environ()` -/
def Context.get_environ (c : Context) : List (String × String) :=
  c.environ

/-- A launchable tool (`SuiteTool` of `allzpark.core`): the command name, the
workspace/context label and the owning resolved context.  The `metadata` and
`variant` attributes feed only the icon/label display and are not modelled. -/
structure SuiteTool where
  name : String
  ctx_name : String
  context : Context

/-- Display state of a `ToolContextWidget`: the context loaded into the
context view, the environment dict loaded into the environment view, and the
launcher's tool / enabled state. -/
structure ToolContextState where
  loadedContext : Option Context
  envShown : List (String × String)
  launcherTool : Option SuiteTool
  launchEnabled : Bool

/-- `ToolContextWidget.on_tool_selected(suite_tool, work_env)` (lines
430-438): `env = context.get_environ(); env.update(work_env)`, then load the
context view, load `env` into the environment view (the provenance `note`
call annotates sources and does not change the displayed values), and set the
launcher tool. -/
def on_tool_selected (_s : ToolContextState) (suite_tool : SuiteTool)
    (work_env : List (String × String)) : ToolContextState :=
  let context := suite_tool.context
  let env := dictUpdate (Context.get_environ context) work_env
  { loadedContext := some context
    envShown := env
    launcherTool := some suite_tool
    launchEnabled := true }

/-- `ToolContextWidget.on_tool_cleared()` (lines 440-443). -/
def on_tool_cleared (_s : ToolContextState) : ToolContextState :=
  { loadedContext := none
    envShown := []
    launcherTool := none
    launchEnabled := false }

/-! ## ResolvedEnvironment filter view (gui/widgets.py lines 597-703) -/

/-- State of the `ResolvedEnvironment` view: the search line edit text, the
single-shot debounce timer, the filter text currently applied to the proxy,
the key/value filter mode, the inverse flag, and whether the tree is fully
expanded (`expandAll`) or fully collapsed (`collapseAll`). -/
structure EnvFilterState where
  searchText : String
  timerActive : Bool
  appliedFilter : String
  filterOnKey : Bool
  inverse : Bool
  expanded : Bool
  deriving DecidableEq

/-- The view right after `__init__` (lines 600-647): empty search text, timer
idle, tree in its default collapsed state; `switch.setCheckState(Checked)`
has put the proxy in filter-by-key mode. -/
def initialEnvState : EnvFilterState :=
  { searchText := ""
    timerActive := false
    appliedFilter := ""
    filterOnKey := true
    inverse := false
    expanded := false }

/-- `_on_searched` (lines 681-682): every `textChanged` restarts the 400 ms
single-shot timer. -/
def on_searched (s : EnvFilterState) : EnvFilterState :=
  { s with timerActive := true }

/-- Typing into the search box: the line edit text changes and the
`textChanged` handler `_on_searched` runs. -/
def setSearchText (s : EnvFilterState) (text : String) : EnvFilterState :=
  on_searched { s with searchText := text }

/-- `_deferred_search` (lines 698-703): the timer fired; apply the current
line edit text to the proxy, then expand the tree fully if the text is longer
than one character, else collapse it fully. -/
def deferred_search (s : EnvFilterState) : EnvFilterState :=
  { s with timerActive := false
           appliedFilter := s.searchText
           expanded := decide (1 < s.searchText.length) }

/-- `_on_switched(state)` (lines 684-690), with `checked` standing for
`state == Qt.Checked`: relabel the switch and flip the proxy between
filter-by-key and filter-by-value.  The expansion state is not touched. -/
def on_switched (s : EnvFilterState) (checked : Bool) : EnvFilterState :=
  { s with filterOnKey := checked }

/-- `_on_inverse(state)` (lines 692-696): set the proxy's inverse flag, then
expand the tree fully if the current text is longer than one character, else
collapse it fully. -/
def on_inverse (s : EnvFilterState) (state : Bool) : EnvFilterState :=
  { s with inverse := state
           expanded := decide (1 < s.searchText.length) }

/-- A concrete loader used by the registration witnesses: only `"y"` has a
working factory. -/
def loaderW : String → LoadResult :=
  fun n => if n = "y" then LoadResult.ok none else LoadResult.missing

/-! ## Theorems -/

/-- C5: for every `SlidePageWidget` state and every direction token, calling
`slide_view` with the current page index is a no-op: no animation is created
or started, no warning is logged, and the current index is unchanged. -/
theorem C5_slide_same_index_noop (s : SlideState) (index : Nat) (direction : String)
    (h : index = s.currentIndex) :
    slide_view s index direction = s := by
  simp [slide_view, h]

/-- Witness for C5 at a concrete state and input. -/
theorem C5_witness :
    (1 : Nat) = (SlideState.mk 1 none 0 0).currentIndex
    ∧ slide_view (SlideState.mk 1 none 0 0) 1 "up" = SlideState.mk 1 none 0 0 :=
  ⟨by decide, C5_slide_same_index_noop (SlideState.mk 1 none 0 0) 1 "up" (by decide)⟩

/-- C6: for every `SlidePageWidget` state and every target index different
from the current one, `slide_view` with a direction token outside
left/right/up/down aborts before any animation or page change: the state is
unchanged except for exactly one additional warning. -/
theorem C6_invalid_direction_aborts (s : SlideState) (index : Nat) (direction : String)
    (h : s.currentIndex ≠ index)
    (hl : direction ≠ "left") (hr : direction ≠ "right")
    (hu : direction ≠ "up") (hd : direction ≠ "down") :
    slide_view s index direction = { s with warnings := s.warnings + 1 } := by
  simp [slide_view, directions, h, hl, hr, hu, hd]

/-- Witness for C6 at a concrete state and input. -/
theorem C6_witness :
    ((SlideState.mk 0 none 0 0).currentIndex ≠ 1
      ∧ "diagonal" ≠ "left" ∧ "diagonal" ≠ "right"
      ∧ "diagonal" ≠ "up" ∧ "diagonal" ≠ "down")
    ∧ slide_view (SlideState.mk 0 none 0 0) 1 "diagonal" = SlideState.mk 0 none 0 1 :=
  ⟨⟨by decide, by decide, by decide, by decide, by decide⟩,
    C6_invalid_direction_aborts (SlideState.mk 0 none 0 0) 1 "diagonal"
      (by decide) (by decide) (by decide) (by decide) (by decide)⟩

/-- C7: `AvalonWidget.set_page(p)` is idempotent when `p` equals both the
slider's current index and the widget's cached page: it returns without
calling `slide_view` or changing any state, so a second identical call has no
further effect either. -/
theorem C7_set_page_idempotent (s : AvalonState) (p : Nat)
    (h1 : s.slider.currentIndex = p) (h2 : s.page = p) :
    set_page s p = s ∧ set_page (set_page s p) p = set_page s p := by
  have h : set_page s p = s := by simp [set_page, h1, h2]
  exact ⟨h, by rw [h, h]⟩

/-- Witness for C7 at a concrete state. -/
theorem C7_witness :
    ((AvalonState.mk (SlideState.mk 0 none 0 0) 0 5).slider.currentIndex = 0
      ∧ (AvalonState.mk (SlideState.mk 0 none 0 0) 0 5).page = 0)
    ∧ (set_page (AvalonState.mk (SlideState.mk 0 none 0 0) 0 5) 0
          = AvalonState.mk (SlideState.mk 0 none 0 0) 0 5
      ∧ set_page (set_page (AvalonState.mk (SlideState.mk 0 none 0 0) 0 5) 0) 0
          = set_page (AvalonState.mk (SlideState.mk 0 none 0 0) 0 5) 0) :=
  ⟨⟨by decide, by decide⟩,
    C7_set_page_idempotent (AvalonState.mk (SlideState.mk 0 none 0 0) 0 5) 0
      (by decide) (by decide)⟩

/-- C2: from an unblocked `BusyWidget` (empty busy-work set), the sequence
`set_overwhelmed w; set_overwhelmed w; pop_overwhelmed w` leaves the busy-work
set empty and the widget unblocked: the duplicate add collapses to one set
membership, so the single pop suffices. -/
theorem C2_duplicate_add_single_pop (s : BusyState) (w : String)
    (h : s.busy_works = ∅) :
    (pop_overwhelmed (set_overwhelmed (set_overwhelmed s w) w) w).busy_works = ∅
    ∧ (pop_overwhelmed (set_overwhelmed (set_overwhelmed s w) w) w).blocked = false := by
  obtain ⟨bw, ent, bl, cd⟩ := s
  cases ent <;>
    simp_all [set_overwhelmed, pop_overwhelmed, block_children, over_busy_cursor,
      Finset.insert_ne_empty, Finset.erase_insert_eq_erase, Finset.erase_empty]

/-- Witness for C2: a fresh widget, worker id `"a"`. -/
theorem C2_witness :
    (BusyState.mk ∅ false false 0).busy_works = ∅
    ∧ ((pop_overwhelmed (set_overwhelmed
          (set_overwhelmed (BusyState.mk ∅ false false 0) "a") "a") "a").busy_works = ∅
      ∧ (pop_overwhelmed (set_overwhelmed
          (set_overwhelmed (BusyState.mk ∅ false false 0) "a") "a") "a").blocked = false) :=
  ⟨rfl, C2_duplicate_add_single_pop (BusyState.mk ∅ false false 0) "a" rfl⟩

/-- C10: on a `BusyWidget` whose busy-work set is non-empty, popping a worker
id that is not a member leaves the whole state unchanged: the busy-work set,
the installed blocking filter and the cursor state are exactly as before. -/
theorem C10_pop_nonmember_noop (s : BusyState) (w : String)
    (h1 : s.busy_works ≠ ∅) (h2 : w ∉ s.busy_works) :
    pop_overwhelmed s w = s := by
  simp [pop_overwhelmed, h1, h2]

/-- Witness for C10: busy set holding `"a"`, popping `"b"`. -/
theorem C10_witness :
    ((BusyState.mk {"a"} false true 0).busy_works ≠ ∅
      ∧ "b" ∉ (BusyState.mk {"a"} false true 0).busy_works)
    ∧ pop_overwhelmed (BusyState.mk {"a"} false true 0) "b"
        = BusyState.mk {"a"} false true 0 :=
  ⟨⟨by decide, by decide⟩,
    C10_pop_nonmember_noop (BusyState.mk {"a"} false true 0) "b" (by decide) (by decide)⟩

/-- C1 (divergence witness for the code bug): entering the root scope
`"Studio"` on a fresh `WorkspaceWidget` whose selector has no matching entry
logs exactly one critical message, but then `on_workspace_entered` calls
`enter_workspace` on the void placeholder page (a plain `QWidget` without
that method), raising an unhandled `AttributeError` instead of completing. -/
theorem C1_unknown_root_raises :
    (on_workspace_entered freshWorkspace (Scope.mk "Studio" none)).state.criticalLogs = 1
    ∧ (on_workspace_entered freshWorkspace (Scope.mk "Studio" none)).raisedAttributeError
        = true := by
  constructor <;> rfl

/-- C8 counterexample: the claim demands that after a key/value mode switch
the tree is expanded exactly when the current filter text is longer than one
character.  Type `"ab"` into a fresh view (the 400 ms debounce timer is now
pending, the tree still collapsed) and toggle the filter mode: the text has
length 2, yet `_on_switched` leaves the tree collapsed. -/
theorem C8_counterexample :
    1 < (on_switched (setSearchText initialEnvState "ab") false).searchText.length
    ∧ (on_switched (setSearchText initialEnvState "ab") false).expanded = false := by
  constructor <;> decide

/-- C8 amended: after a debounced text application (`_deferred_search`) or an
inverse toggle (`_on_inverse`) the tree is fully expanded exactly when the
current filter text is longer than one character; a key/value mode switch
(`_on_switched`) leaves the expansion state unchanged. -/
theorem C8_expand_after_filter (s : EnvFilterState) (b : Bool) :
    (deferred_search s).expanded = decide (1 < s.searchText.length)
    ∧ (on_inverse s b).expanded = decide (1 < s.searchText.length)
    ∧ (on_switched s b).expanded = s.expanded :=
  ⟨rfl, rfl, rfl⟩

/-- `comboAddItem` only appends the name to the selector items, whatever the
emptiness of the selector and the signal-blocking flag. -/
theorem comboAddItem_comboItems (s : WorkspaceState) (icon name : String) :
    (comboAddItem s icon name).comboItems = s.comboItems ++ [name] := by
  simp only [comboAddItem, emitBackendChanged]
  split
  · split <;> rfl
  · rfl

/-- The registration loop appends to the selector exactly the names whose
factories load successfully, in order. -/
theorem registerLoop_comboItems (loader : String → LoadResult) (names : List String) :
    ∀ s : WorkspaceState,
      (names.foldl (registerStep loader) s).comboItems
        = s.comboItems ++ names.filter (fun n => (loader n).isOk) := by
  induction names with
  | nil => intro s; simp
  | cons n ns ih =>
      intro s
      cases h : loader n with
      | missing =>
          simp [List.foldl_cons, registerStep, h, ih, LoadResult.isOk]
      | raises =>
          simp [List.foldl_cons, registerStep, h, ih, LoadResult.isOk]
      | ok icon =>
          simp [List.foldl_cons, registerStep, h, ih, LoadResult.isOk,
            comboAddItem_comboItems]

/-- On a fresh workspace widget, `register_backends` fills the selector with
exactly the names that load successfully, in order. -/
theorem register_backends_comboItems (loader : String → LoadResult) (names : List String) :
    (register_backends freshWorkspace names loader).comboItems
      = names.filter (fun n => (loader n).isOk) := by
  simp only [register_backends, freshWorkspace]
  split
  · simp_all
  · simp only [emitBackendChanged]
    split
    · simp [registerLoop_comboItems]
    · split <;> simp [registerLoop_comboItems]

/-- C3: a backend name whose widget factory raises or is absent from the
registry is logged at error severity and skipped while registration proceeds
for every remaining name (the selector receives exactly the names that load);
in particular registering `["x", "y"]` on a fresh widget where `"x"` fails
and `"y"` loads yields exactly the selector entry `"y"`, one error log, and a
single `backend_changed` emission carrying `"y"`. -/
theorem C3_register_skips_failures (loader : String → LoadResult)
    (names : List String) (icon : Option String)
    (hx : loader "x" = LoadResult.missing ∨ loader "x" = LoadResult.raises)
    (hy : loader "y" = LoadResult.ok icon) :
    (register_backends freshWorkspace names loader).comboItems
        = names.filter (fun n => (loader n).isOk)
    ∧ (register_backends freshWorkspace ["x", "y"] loader).comboItems = ["y"]
    ∧ (register_backends freshWorkspace ["x", "y"] loader).backendChangedEvents = ["y"]
    ∧ (register_backends freshWorkspace ["x", "y"] loader).errorLogs = 1 := by
  refine ⟨register_backends_comboItems loader names, ?_⟩
  have hstate : register_backends freshWorkspace ["x", "y"] loader
      = { stack := [Page.void, Page.backend "y"]
          stackCurrent := 0
          comboItems := ["y"]
          comboIcons := [icon.getD ":/icons/server.svg"]
          signalsBlocked := false
          backendChangedEvents := ["y"]
          errorLogs := 1
          criticalLogs := 0 } := by
    rcases hx with hx | hx <;>
      simp [register_backends, freshWorkspace, registerStep, hx, hy,
        comboAddItem, emitBackendChanged, comboCurrentText]
  rw [hstate]
  exact ⟨rfl, rfl, rfl⟩

/-- Witness for C3 with the concrete loader `loaderW`. -/
theorem C3_witness :
    (loaderW "x" = LoadResult.missing ∨ loaderW "x" = LoadResult.raises)
    ∧ ((register_backends freshWorkspace ["x", "y"] loaderW).comboItems
          = ["x", "y"].filter (fun n => (loaderW n).isOk)
      ∧ (register_backends freshWorkspace ["x", "y"] loaderW).comboItems = ["y"]
      ∧ (register_backends freshWorkspace ["x", "y"] loaderW).backendChangedEvents = ["y"]
      ∧ (register_backends freshWorkspace ["x", "y"] loaderW).errorLogs = 1) :=
  ⟨Or.inl (by decide),
    C3_register_skips_failures loaderW ["x", "y"] none (Or.inl (by decide)) (by decide)⟩

/-- C9: once a call to `register_backends` has added at least one backend page
(the stack holds more than the void page), every further call, with any list
of names, is a complete no-op: the state, selector, stack and emitted events
are untouched. -/
theorem C9_register_noop_when_loaded (s : WorkspaceState) (names : List String)
    (loader : String → LoadResult) (h : 1 < s.stack.length) :
    register_backends s names loader = s := by
  simp [register_backends, h]

/-- Witness for C9: the state produced by a first successful registration has
two stack pages, and a second call with other names leaves it unchanged. -/
theorem C9_witness :
    1 < (register_backends freshWorkspace ["y"] loaderW).stack.length
    ∧ register_backends (register_backends freshWorkspace ["y"] loaderW) ["a", "b"] loaderW
        = register_backends freshWorkspace ["y"] loaderW :=
  ⟨by decide,
    C9_register_noop_when_loaded (register_backends freshWorkspace ["y"] loaderW)
      ["a", "b"] loaderW (by decide)⟩

/-- Assigning a key makes lookup of that key return the assigned value. -/
theorem dictLookup_dictSet_self (d : List (String × String)) (k v : String) :
    dictLookup (dictSet d k v) k = some v := by
  induction d with
  | nil => simp [dictSet, dictLookup]
  | cons p d ih =>
      by_cases h : p.1 = k
      · simp [dictSet, h, dictLookup]
      · simpa [dictSet, h, dictLookup] using ih

/-- Assigning a key leaves lookup of every other key unchanged. -/
theorem dictLookup_dictSet_other (d : List (String × String)) (k v k' : String)
    (h : k' ≠ k) :
    dictLookup (dictSet d k v) k' = dictLookup d k' := by
  induction d with
  | nil => simp [dictSet, dictLookup, Ne.symm h]
  | cons p d ih =>
      by_cases hp : p.1 = k
      · simp [dictSet, hp, dictLookup, Ne.symm h]
      · by_cases hq : p.1 = k'
        · simp [dictSet, hp, h, dictLookup, hq]
        · simpa [dictSet, hp, dictLookup, hq] using ih

/-- A key absent from the update dict keeps its value from the base dict. -/
theorem dictLookup_dictUpdate_of_none (u : List (String × String)) :
    ∀ d k, dictLookup u k = none → dictLookup (dictUpdate d u) k = dictLookup d k := by
  induction u with
  | nil => intro d k _; rfl
  | cons p u ih =>
      intro d k h
      have hp : ¬(p.1 = k) := by
        intro hk
        simp [dictLookup, hk] at h
      have hu : dictLookup u k = none := by
        simpa [dictLookup, hp] using h
      calc dictLookup (dictUpdate (dictSet d p.1 p.2) u) k
          = dictLookup (dictSet d p.1 p.2) k := ih _ _ hu
        _ = dictLookup d k := dictLookup_dictSet_other _ _ _ _ (fun hk => hp hk.symm)

/-- A key present in the update dict (whose keys are distinct, as for a
Python dict) ends up with the update dict's value. -/
theorem dictLookup_dictUpdate_of_some (u : List (String × String)) :
    ∀ d k v, (u.map Prod.fst).Nodup → dictLookup u k = some v →
      dictLookup (dictUpdate d u) k = some v := by
  induction u with
  | nil => intro d k v _ h; simp [dictLookup] at h
  | cons p u ih =>
      intro d k v hnd h
      rw [List.map_cons, List.nodup_cons] at hnd
      by_cases hp : p.1 = k
      · have hv : p.2 = v := by
          simpa [dictLookup, hp] using h
        have hkn : dictLookup u k = none := by
          rw [dictLookup, Option.map_eq_none']
          refine List.find?_eq_none.2 (fun q hq => ?_)
          simp only [decide_eq_true_eq]
          intro hqk
          exact hnd.1 (hp ▸ hqk ▸ List.mem_map_of_mem Prod.fst hq)
        have : dictLookup (dictUpdate (dictSet d p.1 p.2) u) k
            = dictLookup (dictSet d p.1 p.2) k :=
          dictLookup_dictUpdate_of_none u _ _ hkn
        rw [dictUpdate, this, hp, dictLookup_dictSet_self, hv]
      · have hu : dictLookup u k = some v := by
          simpa [dictLookup, hp] using h
        rw [dictUpdate]
        exact ih _ _ _ hnd.2 hu

/-- C4: the environment displayed by `ToolContextWidget.on_tool_selected` is
the context's computed environment merged with the work-directory-local
overrides: a key present in the overrides takes its override value, a key
absent from the overrides keeps its computed value (a merge, not a wholesale
replacement). -/
theorem C4_env_merge_local_wins (s0 : ToolContextState) (tool : SuiteTool)
    (work_env : List (String × String)) (k : String)
    (hnd : (work_env.map Prod.fst).Nodup) :
    (∀ v, dictLookup work_env k = some v →
        dictLookup (on_tool_selected s0 tool work_env).envShown k = some v)
    ∧ (dictLookup work_env k = none →
        dictLookup (on_tool_selected s0 tool work_env).envShown k
          = dictLookup tool.context.environ k) := by
  constructor
  · intro v hv
    show dictLookup (dictUpdate tool.context.environ work_env) k = some v
    exact dictLookup_dictUpdate_of_some work_env _ _ _ hnd hv
  · intro hnone
    show dictLookup (dictUpdate tool.context.environ work_env) k
        = dictLookup tool.context.environ k
    exact dictLookup_dictUpdate_of_none work_env _ _ hnone

/-- Witness for C4: with computed `PATH = "/a:/b"` and local override
`PATH = "/c"`, the displayed `PATH` value is `"/c"`. -/
theorem C4_witness :
    (([("PATH", "/c")] : List (String × String)).map Prod.fst).Nodup
    ∧ dictLookup (on_tool_selected
          (ToolContextState.mk none [] none false)
          (SuiteTool.mk "maya" "ctxA" (Context.mk [("PATH", "/a:/b")]))
          [("PATH", "/c")]).envShown "PATH" = some "/c" :=
  ⟨by decide,
    (C4_env_merge_local_wins
      (ToolContextState.mk none [] none false)
      (SuiteTool.mk "maya" "ctxA" (Context.mk [("PATH", "/a:/b")]))
      [("PATH", "/c")] "PATH" (by decide)).1 "/c" (by decide)⟩

end Park
